import Mathlib

/-!
Shallow embedding of the mole tunnel package (`tunnel` package of the
repository, found in the second part of `src/cmd/root.go`).

External collaborators (the SSH wire library, the filesystem, the
OpenSSH-config reader `NewSSHConfigFile`/`Get`, the key reader
`NewPemKey`, `os.UserHomeDir`) are passed in as explicit parameters:
a config lookup is a function from host alias to a stanza, the key
reader is an oracle from a path to an optional parsed key, and the
outcome of each `ssh.Dial` attempt is an oracle indexed by the global
attempt counter.

Durations are modelled as natural numbers of nanoseconds, matching
Go's `time.Duration`.
-/

namespace Mole

/-- `time.Second` in nanoseconds. -/
def timeSecond : Nat := 1000000000

/-- Constant `RandomPortAddress = "127.0.0.1:0"`. -/
def RandomPortAddress : String := "127.0.0.1:0"

/-- Constant `HostMissing`. -/
def HostMissing : String := "server host has to be provided as part of the server address"

/-- Constant `NoRemoteGiven`. -/
def NoRemoteGiven : String := "cannot create a tunnel without at least one remote address"

/-- `reconcile(precident, subsequent)`: first value if non-empty, else second. -/
def reconcile (precident subsequent : String) : String :=
  if precident ≠ "" then precident else subsequent

/-- `strings.HasPrefix(s, pre)`, over the character lists of the strings. -/
def hasPrefixStr (pre s : String) : Bool :=
  List.isPrefixOf pre.data s.data

/-- `expandAddress(address)`: an address beginning with `:` has `127.0.0.1`
prepended. -/
def expandAddress (address : String) : String :=
  if hasPrefixStr ":" address then "127.0.0.1" ++ address else address

/-- One stanza returned by `SSHConfigFile.Get` (Hostname, Port, User, Key fields). -/
structure SSHHost where
  Hostname : String
  Port : String
  User : String
  Key : String
deriving Repr, DecidableEq

/-- A parsed private key; `NewPemKey` reads it from a path.  Modelled as an
opaque wrapper around the path it was read from. -/
structure PemKey where
  path : String
deriving Repr, DecidableEq

/-- The `Server` structure: name (alias), dial address, user, key, insecure flag. -/
structure Server where
  Name : String
  Address : String
  User : String
  Key : PemKey
  Insecure : Bool := false
deriving Repr, DecidableEq

/-- `strings.Split` on a single separator character, over the character
list of a string (an executable model of Go's `strings.Split(s, ":")`). -/
def splitChars (sep : Char) : List Char → List (List Char)
  | [] => [[]]
  | c :: cs =>
    if c = sep then [] :: splitChars sep cs
    else
      match splitChars sep cs with
      | [] => [[c]]
      | h :: t => (c :: h) :: t

/-- `strings.Split(s, sep)` for a one-character separator. -/
def splitOnChar (sep : Char) (s : String) : List String :=
  (splitChars sep s.data).map (fun l => String.mk l)

/-- `strings.Contains(s, c)` for a one-character needle. -/
def containsChar (c : Char) (s : String) : Bool := s.data.contains c

/-- The host/port split at the start of `NewServer`:
`host = address; if contains ":" then host = args[0]; port = args[1]`. -/
def splitAddress (address : String) : String × String :=
  if containsChar ':' address then
    let args := splitOnChar ':' address
    (args.getD 0 "", args.getD 1 "")
  else
    (address, "")

/-- Error message for an unresolved hostname. -/
def unresolvedHostnameError (host : String) : String :=
  "no server hostname (ip) could be found for server " ++ host

/-- Error message for a missing user. -/
def missingUserError (host : String) : String :=
  "no user could be found for server " ++ host

/-- Error message when the home directory cannot be determined. -/
def noHomeDirError : String := "could not obtain user home directory"

/-- Error message when the key cannot be read. -/
def keyReadError (key : String) : String := "error while reading key " ++ key

/-- `NewServer(user, address, key)`.  `cfg` is the config file: `none` when
`NewSSHConfigFile()` fails, otherwise the `Get` lookup.  `home` is
`os.UserHomeDir()` and `newPemKey` the key reader. -/
def NewServer (cfg : Option (String → SSHHost)) (home : Option String)
    (newPemKey : String → Option PemKey)
    (user address key : String) : Except String Server :=
  let hp := splitAddress address
  let host := hp.1
  match cfg with
  | none => .error ("error accessing " ++ host)
  | some get =>
    let h := get host
    let hostname := reconcile h.Hostname host
    let port := reconcile hp.2 h.Port
    let user := reconcile user h.User
    let key := reconcile key h.Key
    if host = "" then
      .error HostMissing
    else if hostname = "" then
      .error (unresolvedHostnameError host)
    else
      let port := if port = "" then "22" else port
      if user = "" then
        .error (missingUserError host)
      else
        let keyPath : Except String String :=
          if key = "" then
            match home with
            | none => .error noHomeDirError
            | some hm => .ok (hm ++ "/.ssh/id_rsa")
          else .ok key
        match keyPath with
        | .error e => .error e
        | .ok kp =>
          match newPemKey kp with
          | none => .error (keyReadError kp)
          | some pk => .ok { Name := host, Address := hostname ++ ":" ++ port, User := user, Key := pk }

/-- One forwarding pair (the `SSHChannel` structure, address fields only;
the runtime listener and connection live in the supervisor model). -/
structure SSHChannel where
  Local : String
  Remote : String
deriving Repr, DecidableEq

/-- A `LocalForward` pair from the SSH config file. -/
structure LocalForward where
  Local : String
  Remote : String
deriving Repr, DecidableEq

/-- `getLocalForward(serverName)`: consult the config file for a LocalForward.
`cfg` is `none` when `NewSSHConfigFile()` fails; the lookup returns `none`
when the stanza has no LocalForward. -/
def getLocalForward (cfg : Option (String → Option LocalForward)) (serverName : String) :
    Except String LocalForward :=
  match cfg with
  | none => .error "error reading ssh configuration file"
  | some get =>
    match get serverName with
    | none => .error ("LocalForward could not be found or has invalid syntax for host " ++ serverName)
    | some lf => .ok lf

/-- The tail of `BuildSSHChannels`: `expandAddress` over both lists, then
`channels[i] = {Local: local[i], Remote: remote[i]}` for `i` over `remote`
(at this point both lists always have equal length). -/
def buildFrom (locals remotes : List String) : List SSHChannel :=
  let locals := locals.map expandAddress
  let remotes := remotes.map expandAddress
  List.zipWith (fun l r => { Local := l, Remote := r }) locals remotes

/-- `BuildSSHChannels(serverName, local, remote)`. -/
def BuildSSHChannels (cfg : Option (String → Option LocalForward))
    (serverName : String) (locals remotes : List String) :
    Except String (List SSHChannel) :=
  if locals.length = 0 ∧ remotes.length = 0 then
    match getLocalForward cfg serverName with
    | .error e => .error e
    | .ok lf => .ok (buildFrom [lf.Local] [lf.Remote])
  else
    let lSize := locals.length
    let rSize := remotes.length
    if lSize > rSize then
      if rSize = 0 then
        .error NoRemoteGiven
      else
        .ok (buildFrom (locals.take rSize) remotes)
    else if lSize < rSize then
      let nl := (List.range rSize).map (fun i =>
        if i < lSize then
          if locals.getD i "" ≠ "" then locals.getD i "" else RandomPortAddress
        else RandomPortAddress)
      .ok (buildFrom nl remotes)
    else
      .ok (buildFrom locals remotes)

/-- Error message for an invalid channel at `New`. -/
def invalidChannelError (ch : SSHChannel) : String :=
  "invalid ssh channel: local=" ++ ch.Local ++ ", remote=" ++ ch.Remote

/-- The static part of a `Tunnel` built by `New` (runtime channels and the
ssh client are part of the supervisor state). -/
structure Tunnel where
  server : Server
  channels : List SSHChannel
deriving Repr, DecidableEq

/-- `New(server, channels)`: reject the first channel whose local or remote
address is empty. -/
def New (server : Server) (channels : List SSHChannel) : Except String Tunnel :=
  match channels.find? (fun ch => ch.Local == "" || ch.Remote == "") with
  | some ch => .error (invalidChannelError ch)
  | none => .ok { server := server, channels := channels }

/-- An opaque ssh signer produced by parsing a key. -/
structure Signer where
  key : PemKey
deriving Repr, DecidableEq

/-- The fields of `ssh.ClientConfig` that the code sets: user, auth from the
signer, which host-key callback was installed, and the handshake timeout in
nanoseconds. -/
structure ClientConfig where
  User : String
  AuthSigner : Signer
  InsecureCallback : Bool
  Timeout : Nat
deriving Repr, DecidableEq

/-- `sshClientConfig(server)`: parse the key, build the host-key callback
(permissive iff `Insecure`, otherwise from the known_hosts file whose
availability is the `knownHostsOk` parameter), and set
`Timeout: 3 * time.Second`. -/
def sshClientConfig (parseKey : PemKey → Option Signer) (knownHostsOk : Bool)
    (server : Server) : Except String ClientConfig :=
  match parseKey server.Key with
  | none => .error "error parsing key"
  | some signer =>
    if server.Insecure then
      .ok { User := server.User, AuthSigner := signer, InsecureCallback := true,
            Timeout := 3 * timeSecond }
    else if knownHostsOk then
      .ok { User := server.User, AuthSigner := signer, InsecureCallback := false,
            Timeout := 3 * timeSecond }
    else
      .error "error while parsing known_hosts file"

/-- Error message returned by `dial` when the bounded retries are exhausted. -/
def reconnectExhaustedError : String := "error while connection to ssh server"

/-- Error message returned by `startChannel` when the ssh client is nil. -/
def missingSSHClientError : String :=
  "tunnel channel cannot be established: missing connection to the ssh server"

/-- Error message returned by `startChannel` when the remote dial fails. -/
def remoteDialError : String := "remote dial error"

/-- Error message returned by `startChannel` when the local accept fails. -/
def localAcceptError : String := "error while establishing local connection"

/-- `startChannel(channel)` after the listener accepted (or failed to accept)
one local connection: check the accept error, then the nil client, then dial
the remote endpoint over the client.  Returns the error it would report, or
`none` when the two copy goroutines were spawned. -/
def startChannel (client : Option Unit) (acceptOk : Bool) (remoteDialOk : Bool) :
    Option String :=
  if !acceptOk then some localAcceptError
  else if client = none then some missingSSHClientError
  else if !remoteDialOk then some remoteDialError
  else none

/-- Observable events of one `dial()` call: an `ssh.Dial` attempt (with its
index in the run-global attempt counter) or a `time.Sleep(WaitAndRetry)`
(with the wait duration in nanoseconds). -/
inductive DialEv where
  | attempt (i : Nat)
  | sleep (d : Nat)
deriving Repr, DecidableEq

/-- The result of one `dial()` call: the event list, the final `t.client`,
the returned error, and whether the keep-alive and disconnect-watcher
goroutines were spawned. -/
structure DialResult where
  events : List DialEv
  client : Option Unit
  err : Option String
  keepAlive : Bool
  watcher : Bool
deriving Repr, DecidableEq

/-- The retry loop inside `dial()`.  `oracle` gives the outcome of each
`ssh.Dial` by global attempt index, `base` is the number of attempts made by
earlier `dial()` calls in the same run, `retries` is the loop counter, and
`fuel` bounds the iterations (the Go loop may run forever when
`ConnectionRetries = 0`); `none` means fuel ran out.  It returns the events,
the final client value and the error `dial` will return from inside the
loop (`none` = the loop was left through one of its `break`s). -/
def dialLoop (cr : Int) (wait : Nat) (oracle : Nat → Bool) (base : Nat) :
    Nat → Nat → Nat → Option (List DialEv × Option Unit × Option String)
  | _, _, 0 => none
  | retries, att, fuel + 1 =>
    if cr > 0 ∧ (retries : Int) = cr then
      some ([], none, some reconnectExhaustedError)
    else
      if oracle (base + att) then
        some ([.attempt (base + att)], some (), none)
      else if cr < 0 then
        some ([.attempt (base + att)], none, none)
      else
        match dialLoop cr wait oracle base (retries + 1) (att + 1) fuel with
        | none => none
        | some (evs, cl, e) => some (.attempt (base + att) :: .sleep wait :: evs, cl, e)

/-- `dial()`: run the retry loop; on a loop error return it before spawning
anything; on a `break` spawn the keep-alive goroutine, spawn the disconnect
watcher iff `ConnectionRetries > 0`, and return nil. -/
def dial (cr : Int) (wait : Nat) (oracle : Nat → Bool) (base : Nat) (fuel : Nat) :
    Option DialResult :=
  match dialLoop cr wait oracle base 0 0 fuel with
  | none => none
  | some (evs, cl, some e) =>
    some { events := evs, client := cl, err := some e, keepAlive := false, watcher := false }
  | some (evs, cl, none) =>
    some { events := evs, client := cl, err := none, keepAlive := true,
           watcher := decide (cr > 0) }

/-- Number of `ssh.Dial` attempts in a dial result. -/
def DialResult.attempts (r : DialResult) : Nat :=
  (r.events.filter (fun e => match e with | .attempt _ => true | .sleep _ => false)).length

/-!
Sequential model of `Start()`.

The supervisor and its goroutines are modelled as a deterministic state
machine driven by a script of external events.  Channel sends and receives
follow the code: `stopKeepAlive`, `watchConn`, `reconnect` and `done` all
have capacity 1; a send is delivered to a blocked consumer goroutine when
one exists, buffered when the buffer is free, and blocks otherwise.  A
goroutine spawned while a value addressed to its channel is already
buffered consumes it at once (the fresh disconnect watcher selects on
`watchConn` before `Wait()` has returned; the fresh keep-alive goroutine
selects on `stopKeepAlive` before the first ticker tick).
-/

/-- Supervisor state: `t.client`, which goroutines are alive, the two
capacity-1 buffers the supervisor sends into, and counters for the observable
actions (ready consolidators spawned, successful `connect()` bodies run,
total `ssh.Dial` attempts). -/
structure SupState where
  client : Option Unit
  keepAliveActive : Bool
  watcherActive : Bool
  stopKABuf : Bool
  watchConnBuf : Bool
  readySpawns : Nat
  connects : Nat
  loopsSpawned : Bool
  totalDials : Nat
deriving Repr, DecidableEq

/-- The state when `Start()` is entered. -/
def initState : SupState :=
  { client := none, keepAliveActive := false, watcherActive := false,
    stopKABuf := false, watchConnBuf := false, readySpawns := 0,
    connects := 0, loopsSpawned := false, totalDials := 0 }

/-- External events driving the supervisor: the ssh session terminates
(`client.Wait()` returns `e`), `Stop()` is called, or a channel listener
accepts one local connection whose remote dial would succeed iff
`remoteDialOk`. -/
inductive Ev where
  | sessionDeath (e : String)
  | stopCall
  | localAccept (remoteDialOk : Bool)
deriving Repr, DecidableEq

/-- How a `Start()` run ends: it returns an error (or nil), panics (the nil
ssh client is closed), blocks on a channel send with a full buffer and no
consumer, blocks in the select with no event left, or the model ran out of
fuel. -/
inductive Outcome where
  | returned (e : Option String)
  | panicked (msg : String)
  | blockedSend
  | blocked
  | fuelOut
deriving Repr, DecidableEq

/-- The panic raised by `t.client.Close()` when `t.client` is nil. -/
def nilClientClose : String := "invalid memory address or nil pointer dereference"

/-- `t.stopKeepAlive <- true`: delivered to a live keep-alive goroutine,
else buffered, else the send blocks. -/
def sendStopKA (s : SupState) : Option SupState :=
  if s.keepAliveActive then some { s with keepAliveActive := false }
  else if s.stopKABuf = false then some { s with stopKABuf := true }
  else none

/-- `t.watchConn <- false`: delivered to a live watcher goroutine, else
buffered, else the send blocks. -/
def sendWatchOff (s : SupState) : Option SupState :=
  if s.watcherActive then some { s with watcherActive := false }
  else if s.watchConnBuf = false then some { s with watchConnBuf := true }
  else none

/-- `connect()`: `Listen()` (listener binding is kept out of the model and
assumed to succeed; bound listeners persist), then `dial()`; a dial error is
posted on `t.reconnect` (returned as the second component); on a nil dial
error the per-channel accept loops and the one-shot ready consolidator are
spawned.  A goroutine spawned by `dial` consumes a stale buffered value of
its channel at once and exits. -/
def doConnect (cr : Int) (wait : Nat) (oracle : Nat → Bool) (fuel : Nat)
    (s : SupState) : Option (SupState × Option String) :=
  match dial cr wait oracle s.totalDials fuel with
  | none => none
  | some r =>
    let s := { s with totalDials := s.totalDials + r.attempts, client := r.client }
    let s :=
      if r.keepAlive then
        if s.stopKABuf then { s with stopKABuf := false }
        else { s with keepAliveActive := true }
      else s
    let s :=
      if r.watcher then
        if s.watchConnBuf then { s with watchConnBuf := false }
        else { s with watcherActive := true }
      else s
    match r.err with
    | some e => some (s, some e)
    | none =>
      let s := { s with readySpawns := s.readySpawns + 1, connects := s.connects + 1, loopsSpawned := true }
      some (s, none)

/-- The supervisory select loop of `Start()` plus the goroutine handoffs.
`recBuf`/`doneBuf` are the capacity-1 `t.reconnect` and `t.done` buffers; a
pending message is consumed before the next external event is taken. -/
def supLoop (cr : Int) (wait : Nat) (oracle : Nat → Bool) :
    Nat → SupState → Option String → Option (Option String) → List Ev → Outcome × SupState
  | 0, s, _, _, _ => (.fuelOut, s)
  | fuel + 1, s, some _e, doneBuf, evs =>
    -- case err := <-t.reconnect, with err ≠ nil (every modelled post carries one)
    match sendStopKA s with
    | none => (.blockedSend, s)
    | some s1 =>
      match sendWatchOff s1 with
      | none => (.blockedSend, s1)
      | some s2 =>
        match s2.client with
        | none => (.panicked nilClientClose, s2)
        | some _ =>
          -- t.client.Close() succeeded (the field keeps pointing at the
          -- closed client); t.connect() runs again
          match doConnect cr wait oracle fuel s2 with
          | none => (.fuelOut, s2)
          | some (s3, rec) => supLoop cr wait oracle fuel s3 rec doneBuf evs
  | _fuel + 1, s, none, some e, _evs =>
    -- case err := <-t.done
    match s.client with
    | none => (.returned e, s)
    | some _ =>
      match sendStopKA s with
      | none => (.blockedSend, s)
      | some s1 =>
        match sendWatchOff s1 with
        | none => (.blockedSend, s1)
        | some s2 => (.returned e, s2)
  | fuel + 1, s, none, none, evs =>
    match evs with
    | [] => (.blocked, s)
    | ev :: rest =>
      match ev with
      | .sessionDeath e =>
        if s.watcherActive then
          -- the watcher receives the Wait() error and posts it on t.reconnect
          supLoop cr wait oracle fuel { s with watcherActive := false } (some e) none rest
        else
          -- no watcher goroutine observes the session termination
          supLoop cr wait oracle fuel s none none rest
      | .stopCall =>
        -- Stop() posts nil on t.done
        supLoop cr wait oracle fuel s none (some none) rest
      | .localAccept remoteDialOk =>
        if s.loopsSpawned then
          match startChannel s.client true remoteDialOk with
          | some e => supLoop cr wait oracle fuel s none (some (some e)) rest
          | none => supLoop cr wait oracle fuel s none none rest
        else
          supLoop cr wait oracle fuel s none none rest

/-- `Start()`: run `connect()` once, then enter the supervisory loop. -/
def startSim (cr : Int) (wait : Nat) (oracle : Nat → Bool) (evs : List Ev)
    (fuel : Nat) : Outcome × SupState :=
  match doConnect cr wait oracle fuel initState with
  | none => (.fuelOut, initState)
  | some (s, rec) => supLoop cr wait oracle fuel s rec none evs

end Mole

namespace Mole

/-! Helper lemmas shared by the channel-pairing claims. -/

/-- Length of the channel list built by `buildFrom`. -/
theorem buildFrom_length (locals remotes : List String) :
    (buildFrom locals remotes).length = min locals.length remotes.length := by
  simp [buildFrom]

/-- `buildFrom` pairs index-wise and canonicalizes both sides. -/
theorem buildFrom_zipWith (locals remotes : List String) :
    buildFrom locals remotes =
      List.zipWith (fun l r => { Local := expandAddress l, Remote := expandAddress r })
        locals remotes := by
  simp [buildFrom, List.zipWith_map]

/-- Sample config-file lookup used to instantiate universally quantified
theorems at a concrete input: the alias `alias` resolves to `real.host`. -/
def sampleGet : String → SSHHost := fun a =>
  if a = "alias" then { Hostname := "real.host", Port := "", User := "", Key := "" }
  else { Hostname := "", Port := "", User := "", Key := "" }

/-- Sample server record used to instantiate universally quantified theorems
at a concrete input. -/
def sampleServer : Server :=
  { Name := "srv", Address := "h:22", User := "u", Key := { path := "p" } }

/-- C3: as stated, the claim asserts output length `max(|L|, |R|)` for every
pair of non-empty lists; at `L = ["x:1", "y:2"]`, `R = ["a:9"]` the output
has length `1 = |R|` while `max(|L|, |R|) = 2`, refuting the first conjunct. -/
theorem C3_counterexample :
    BuildSSHChannels none "srv" ["x:1", "y:2"] ["a:9"] =
      .ok [{ Local := "x:1", Remote := "a:9" }] ∧
    ([{ Local := "x:1", Remote := "a:9" }] : List SSHChannel).length ≠
      max (["x:1", "y:2"] : List String).length (["a:9"] : List String).length := by
  exact ⟨by rfl, by decide⟩

/-- C3 (amended): for non-empty `L` and `R` the output of `BuildSSHChannels`
has length `|R|` — which equals `max(|L|, |R|)` exactly when `|L| ≤ |R|`;
when `|L| > |R| > 0` the extra locals are truncated, so the length is again
`|R|`; and a non-empty `L` with empty `R` fails with `NoRemoteGiven`. -/
theorem C3_output_length (cfg : Option (String → Option LocalForward)) (name : String)
    (L R : List String) :
    (L ≠ [] → R ≠ [] →
      ∃ cs, BuildSSHChannels cfg name L R = .ok cs ∧ cs.length = R.length ∧
        (L.length ≤ R.length → cs.length = max L.length R.length)) ∧
    (L ≠ [] → R = [] → BuildSSHChannels cfg name L R = .error NoRemoteGiven) := by
  constructor
  · intro hL hR
    have hL0 : L.length ≠ 0 := by simpa using hL
    have hR0 : R.length ≠ 0 := by simpa using hR
    rcases lt_trichotomy L.length R.length with h | h | h
    · have hEq : BuildSSHChannels cfg name L R = .ok (buildFrom
          ((List.range R.length).map (fun i =>
            if i < L.length then
              if L.getD i "" ≠ "" then L.getD i "" else RandomPortAddress
            else RandomPortAddress)) R) := by
        unfold BuildSSHChannels
        rw [if_neg (by omega), if_neg (by omega : ¬ L.length > R.length), if_pos h]
      refine ⟨_, hEq, ?_, ?_⟩
      · simp [buildFrom_length]
      · intro h2; simp [buildFrom_length]; omega
    · have hEq : BuildSSHChannels cfg name L R = .ok (buildFrom L R) := by
        unfold BuildSSHChannels
        rw [if_neg (by omega), if_neg (by omega : ¬ L.length > R.length),
          if_neg (by omega : ¬ L.length < R.length)]
      refine ⟨_, hEq, ?_, ?_⟩
      · simp [buildFrom_length]; omega
      · intro h2; simp [buildFrom_length]; omega
    · have hEq : BuildSSHChannels cfg name L R = .ok (buildFrom (L.take R.length) R) := by
        unfold BuildSSHChannels
        rw [if_neg (by omega), if_pos (by omega : L.length > R.length), if_neg hR0]
      refine ⟨_, hEq, ?_, ?_⟩
      · simp [buildFrom_length]; omega
      · intro h2; omega
  · intro hL hR
    subst hR
    have hL0 : L.length ≠ 0 := by simpa using hL
    unfold BuildSSHChannels
    simp only [List.length_nil]
    rw [if_neg (by omega), if_pos (by omega : L.length > 0)]
    simp

/-- C3 witness at `L = ["x:1"]`, `R = [":9", ":10"]` (output length 2) and at
`L = ["x:1", "y:2"]`, `R = []` (`NoRemoteGiven`). -/
theorem C3_witness :
    (∃ cs, BuildSSHChannels none "srv" ["x:1"] [":9", ":10"] = .ok cs ∧ cs.length = 2) ∧
    BuildSSHChannels none "srv" ["x:1", "y:2"] [] = .error NoRemoteGiven := by
  obtain ⟨cs, hcs, hlen, -⟩ :=
    (C3_output_length none "srv" ["x:1"] [":9", ":10"]).1 (by decide) (by decide)
  exact ⟨⟨cs, hcs, hlen⟩, (C3_output_length none "srv" ["x:1", "y:2"] []).2 (by decide) rfl⟩

/-- C4: with `0 < |L| < |R|`, `BuildSSHChannels` extends `L` to length `|R|`
with `127.0.0.1:0`, replaces every empty slot of the original `L` by
`127.0.0.1:0`, pairs index-wise against `R`, and applies `expandAddress` to
every resulting local and remote address. -/
theorem C4_extension_pairing_canonicalization
    (cfg : Option (String → Option LocalForward)) (name : String)
    (L R : List String) (hL : 0 < L.length) (hLR : L.length < R.length) :
    ∃ cs, BuildSSHChannels cfg name L R = .ok cs ∧ cs.length = R.length ∧
      (∀ i, i < R.length →
        cs.getD i { Local := "", Remote := "" } =
          { Local := expandAddress
              (if i < L.length ∧ L.getD i "" ≠ "" then L.getD i "" else RandomPortAddress),
            Remote := expandAddress (R.getD i "") }) := by
  have hEq : BuildSSHChannels cfg name L R = .ok (buildFrom
      ((List.range R.length).map (fun i =>
        if i < L.length then
          if L.getD i "" ≠ "" then L.getD i "" else RandomPortAddress
        else RandomPortAddress)) R) := by
    unfold BuildSSHChannels
    rw [if_neg (by omega), if_neg (by omega : ¬ L.length > R.length), if_pos hLR]
  refine ⟨_, hEq, ?_, ?_⟩
  · simp [buildFrom_length]
  · intro i h
    have hlen : i < (buildFrom
        ((List.range R.length).map (fun i =>
          if i < L.length then
            if L.getD i "" ≠ "" then L.getD i "" else RandomPortAddress
          else RandomPortAddress)) R).length := by
      simp [buildFrom_length]; omega
    rw [List.getD_eq_getElem _ _ hlen]
    simp only [buildFrom, List.getElem_zipWith, List.getElem_map, List.getElem_range]
    have h1 : (if i < L.length then
          if L.getD i "" ≠ "" then L.getD i "" else RandomPortAddress
        else RandomPortAddress) =
        (if i < L.length ∧ L.getD i "" ≠ "" then L.getD i "" else RandomPortAddress) := by
      by_cases hi : i < L.length
      · by_cases hne : L.getD i "" ≠ ""
        · rw [if_pos hi, if_pos hne, if_pos ⟨hi, hne⟩]
        · rw [if_pos hi, if_neg hne, if_neg (by tauto)]
      · rw [if_neg hi, if_neg (by tauto)]
    rw [h1, List.getD_eq_getElem R "" (by omega)]

/-- C4 witness: the literal S4 example
`L = ["x:1", ""]`, `R = ["a:9", "b:9", "c:9"]`. -/
theorem C4_witness :
    ∃ cs, BuildSSHChannels none "srv" ["x:1", ""] ["a:9", "b:9", "c:9"] = .ok cs ∧
      cs.length = 3 ∧
      cs.getD 0 { Local := "", Remote := "" } = { Local := "x:1", Remote := "a:9" } ∧
      cs.getD 1 { Local := "", Remote := "" } = { Local := "127.0.0.1:0", Remote := "b:9" } ∧
      cs.getD 2 { Local := "", Remote := "" } = { Local := "127.0.0.1:0", Remote := "c:9" } := by
  obtain ⟨cs, hcs, hlen, hget⟩ :=
    C4_extension_pairing_canonicalization none "srv" ["x:1", ""] ["a:9", "b:9", "c:9"]
      (by decide) (by decide)
  refine ⟨cs, hcs, hlen, ?_, ?_, ?_⟩
  · rw [hget 0 (by decide)]; decide
  · rw [hget 1 (by decide)]; decide
  · rw [hget 2 (by decide)]; decide

/-- C10: with `|L| = |R| > 0` the equal-length branch of `BuildSSHChannels`
passes every local address through `expandAddress` unchanged (an empty string
stays empty, since `expandAddress "" = ""`), and `New` then rejects any
channel list containing an empty local address. -/
theorem C10_empty_local_passthrough_rejected
    (cfg : Option (String → Option LocalForward)) (name : String)
    (L R : List String) (hLR : L.length = R.length) (h0 : 0 < L.length)
    (server : Server) (channels : List SSHChannel)
    (hch : ∃ ch ∈ channels, ch.Local = "") :
    BuildSSHChannels cfg name L R =
      .ok (List.zipWith (fun l r => { Local := expandAddress l, Remote := expandAddress r }) L R) ∧
    expandAddress "" = "" ∧
    ∃ msg, New server channels = .error msg := by
  refine ⟨?_, by rfl, ?_⟩
  · unfold BuildSSHChannels
    rw [if_neg (by omega), if_neg (by omega : ¬ L.length > R.length),
      if_neg (by omega : ¬ L.length < R.length), buildFrom_zipWith]
  · obtain ⟨ch, hmem, hloc⟩ := hch
    unfold New
    cases hfind : channels.find? (fun ch => ch.Local == "" || ch.Remote == "") with
    | some c => exact ⟨_, rfl⟩
    | none =>
      rw [List.find?_eq_none] at hfind
      have := hfind ch hmem
      simp [hloc] at this

/-- C10 witness at `L = ["", "x:2"]`, `R = ["a:1", "b:2"]`: the empty local
address survives pairing and `New` rejects the resulting channel. -/
theorem C10_witness :
    BuildSSHChannels none "srv" ["", "x:2"] ["a:1", "b:2"] =
      .ok [{ Local := "", Remote := "a:1" }, { Local := "x:2", Remote := "b:2" }] ∧
    (∃ msg, New sampleServer [{ Local := "", Remote := "a:1" }] = .error msg) := by
  have h := C10_empty_local_passthrough_rejected none "srv" ["", "x:2"] ["a:1", "b:2"] rfl
    (by decide) sampleServer [{ Local := "", Remote := "a:1" }]
    ⟨{ Local := "", Remote := "a:1" }, by decide, rfl⟩
  exact ⟨h.1.trans (congrArg Except.ok (by decide)), h.2.2⟩

end Mole

namespace Mole

/-- C5: as stated, the claim says `NewServer` fails with the
*UnresolvedHostname* error when the reconciled hostname is empty; but the
reconciled hostname `reconcile(stanza.Hostname, host)` can only be empty when
`host` itself is empty, and then the earlier `MissingHost` check fires: at
`address = ""` with an all-empty stanza the reconciled hostname is empty yet
the result is the `HostMissing` error, not the unresolved-hostname one. -/
theorem C5_counterexample :
    reconcile ((fun _ => ({ Hostname := "", Port := "", User := "", Key := "" } : SSHHost))
        (splitAddress "").1).Hostname (splitAddress "").1 = "" ∧
    NewServer (some (fun _ => { Hostname := "", Port := "", User := "", Key := "" }))
        (some "/home/u") (fun p => some { path := p }) "u" "" "k" = .error HostMissing ∧
    HostMissing ≠ unresolvedHostnameError (splitAddress "").1 := by
  refine ⟨by decide, by rfl, by decide⟩

/-- C5 (amended): `NewServer` reconciles each field with the first-non-empty
rule; it fails with `HostMissing` when the host part of the address is empty
(the only case in which the reconciled hostname can be empty, so the
unresolved-hostname check never fires), fails with the missing-user error
when the reconciled user is empty, defaults an empty port to `22` and an
empty key path to `~/.ssh/id_rsa`, and returns a `Server` whose `Address` is
`hostname:port` built from the resolved hostname while `Name` keeps the
alias. -/
theorem C5_reconcile_defaults_address (get : String → SSHHost) (home : String)
    (pem : String → PemKey) (user address key : String) :
    ((splitAddress address).1 = "" →
      NewServer (some get) (some home) (fun p => some (pem p)) user address key =
        .error HostMissing) ∧
    ((splitAddress address).1 ≠ "" →
      reconcile (get (splitAddress address).1).Hostname (splitAddress address).1 ≠ "") ∧
    ((splitAddress address).1 ≠ "" →
      reconcile user (get (splitAddress address).1).User = "" →
      NewServer (some get) (some home) (fun p => some (pem p)) user address key =
        .error (missingUserError (splitAddress address).1)) ∧
    ((splitAddress address).1 ≠ "" →
      reconcile user (get (splitAddress address).1).User ≠ "" →
      NewServer (some get) (some home) (fun p => some (pem p)) user address key =
        .ok { Name := (splitAddress address).1,
              Address := reconcile (get (splitAddress address).1).Hostname (splitAddress address).1
                ++ ":" ++
                (if reconcile (splitAddress address).2 (get (splitAddress address).1).Port = ""
                 then "22"
                 else reconcile (splitAddress address).2 (get (splitAddress address).1).Port),
              User := reconcile user (get (splitAddress address).1).User,
              Key := pem (if reconcile key (get (splitAddress address).1).Key = ""
                          then home ++ "/.ssh/id_rsa"
                          else reconcile key (get (splitAddress address).1).Key) }) := by
  have hrec2 : ∀ a b : String, b ≠ "" → reconcile a b ≠ "" := by
    intro a b hb
    by_cases ha : a = ""
    · simp [reconcile, ha, hb]
    · simp [reconcile, ha]
  refine ⟨?_, ?_, ?_, ?_⟩
  · intro h0
    simp only [NewServer]
    rw [if_pos h0]
  · intro h0
    exact hrec2 _ _ h0
  · intro h0 hu
    simp only [NewServer]
    rw [if_neg h0, if_neg (hrec2 _ _ h0), if_pos hu]
  · intro h0 hu
    simp only [NewServer]
    rw [if_neg h0, if_neg (hrec2 _ _ h0), if_neg hu]
    by_cases hk : reconcile key (get (splitAddress address).1).Key = ""
    · rw [if_pos hk, if_pos hk]
    · rw [if_neg hk, if_neg hk]

/-- C5 witness: the alias `alias:2222` with a stanza resolving the hostname,
an explicit user, and an empty key path. -/
theorem C5_witness :
    NewServer (some sampleGet) (some "/home/u") (fun p => some { path := p })
        "u" "alias:2222" "" =
      .ok { Name := "alias", Address := "real.host:2222", User := "u",
            Key := { path := "/home/u/.ssh/id_rsa" } } := by
  have h := (C5_reconcile_defaults_address sampleGet "/home/u" (fun p => { path := p })
    "u" "alias:2222" "").2.2.2 (by decide) (by decide)
  exact h.trans (congrArg Except.ok (by decide))

/-- C6: with `ConnectionRetries < 0` the retry loop of `dial()` performs
exactly one `ssh.Dial` attempt whatever its outcome; when that attempt fails
the loop is left through the negative-retries `break`, so `dial()` still
returns a nil error while `t.client` stays nil (and the keep-alive goroutine
is spawned on the failed client, the disconnect watcher is not). -/
theorem C6_single_attempt_nil_error (cr : Int) (hcr : cr < 0) (wait : Nat)
    (oracle : Nat → Bool) (base fuel : Nat) :
    (∃ r, dial cr wait oracle base (fuel + 1) = some r ∧ r.attempts = 1) ∧
    (oracle base = false →
      dial cr wait oracle base (fuel + 1) =
        some { events := [.attempt base], client := none, err := none,
               keepAlive := true, watcher := false }) := by
  have h1 : ¬ (cr > 0 ∧ ((0 : Nat) : Int) = cr) := by omega
  have h2 : decide (cr > 0) = false := by simp; omega
  constructor
  · cases ho : oracle (base + 0) with
    | true =>
      refine ⟨{ events := [.attempt (base + 0)], client := some (), err := none,
                keepAlive := true, watcher := decide (cr > 0) }, ?_,
              by simp [DialResult.attempts]⟩
      unfold dial dialLoop
      rw [if_neg h1, if_pos ho]
    | false =>
      refine ⟨{ events := [.attempt (base + 0)], client := none, err := none,
                keepAlive := true, watcher := decide (cr > 0) }, ?_,
              by simp [DialResult.attempts]⟩
      unfold dial dialLoop
      rw [if_neg h1, if_neg (by rw [ho]; simp), if_pos hcr]
  · intro ho
    have ho2 : oracle (base + 0) = false := by simpa using ho
    unfold dial dialLoop
    rw [if_neg h1, if_neg (by rw [ho2]; simp), if_pos hcr]
    simp [h2]

/-- C6 witness at `ConnectionRetries = -1` with an always-failing dial. -/
theorem C6_witness :
    (∃ r, dial (-1) 7 (fun _ => false) 0 1 = some r ∧ r.attempts = 1) ∧
    dial (-1) 7 (fun _ => false) 0 1 =
      some { events := [.attempt 0], client := none, err := none, keepAlive := true,
             watcher := false } := by
  have h := C6_single_attempt_nil_error (-1) (by decide) 7 (fun _ => false) 0 0
  exact ⟨h.1, h.2 rfl⟩

/-- C7: as stated, the claim says the ssh client config uses the configured
dial timeout as handshake timeout; but `sshClientConfig` hard-codes
`Timeout: 3 * time.Second`, so a tunnel configured with a 10-second timeout
still handshakes with a 3-second limit. -/
theorem C7_counterexample :
    sshClientConfig (fun k => some { key := k }) true sampleServer =
      .ok { User := "u", AuthSigner := { key := { path := "p" } },
            InsecureCallback := false, Timeout := 3 * timeSecond } ∧
    (3 * timeSecond : Nat) ≠ 10 * timeSecond := by
  exact ⟨by rfl, by decide⟩

/-- C7 (amended): every client config `sshClientConfig` returns carries the
hard-coded handshake timeout `3 * time.Second`; the configured dial timeout
is not consulted. -/
theorem C7_hardcoded_timeout (parseKey : PemKey → Option Signer) (knownHostsOk : Bool)
    (server : Server) (cfg : ClientConfig)
    (h : sshClientConfig parseKey knownHostsOk server = .ok cfg) :
    cfg.Timeout = 3 * timeSecond := by
  unfold sshClientConfig at h
  cases hp : parseKey server.Key with
  | none => rw [hp] at h; cases h
  | some signer =>
    rw [hp] at h
    cases hi : server.Insecure with
    | true =>
      rw [hi] at h
      simp at h
      rw [← h]
    | false =>
      rw [hi] at h
      cases hk : knownHostsOk with
      | true =>
        rw [hk] at h
        simp at h
        rw [← h]
      | false =>
        rw [hk] at h
        simp at h

/-- C7 witness at a concrete server and key parser. -/
theorem C7_witness :
    ∃ cfg, sshClientConfig (fun k => some { key := k }) true sampleServer = .ok cfg ∧
      cfg.Timeout = 3 * timeSecond := by
  have h : sshClientConfig (fun k => some { key := k }) true sampleServer =
      .ok { User := "u", AuthSigner := { key := { path := "p" } },
            InsecureCallback := false, Timeout := 3 * timeSecond } := by rfl
  exact ⟨_, h, C7_hardcoded_timeout _ _ _ _ h⟩

end Mole

namespace Mole

/-- C1: with `ConnectionRetries = 2` and an always-failing dial, `dial()`
makes exactly two `ssh.Dial` attempts with a `WaitAndRetry` sleep between
them (and one after the second) and returns the retry-exhaustion error —
but `Start()` never returns that error: `connect()` posts it on the
`reconnect` channel, and the supervisory loop then calls `Close` on the nil
ssh client, a nil-pointer panic, instead of returning.  The claim (and the
CLI flag documentation) say `Start()` returns *ReconnectExhausted*. -/
theorem C1_dial_exhausts_but_start_panics :
    dial 2 7 (fun _ => false) 0 9 =
      some { events := [.attempt 0, .sleep 7, .attempt 1, .sleep 7], client := none,
             err := some reconnectExhaustedError, keepAlive := false, watcher := false } ∧
    (startSim 2 7 (fun _ => false) [] 9).1 = .panicked nilClientClose ∧
    (∀ e, (startSim 2 7 (fun _ => false) [] 9).1 ≠ .returned e) := by
  refine ⟨by rfl, by rfl, ?_⟩
  intro e h
  rw [show (startSim 2 7 (fun _ => false) [] 9).1 = .panicked nilClientClose from rfl] at h
  cases h

/-- C2: as stated, the claim says the consolidated ready signal is produced
exactly once per `Start()` run even across reconnects; but every successful
`connect()` — including the one after a reconnect — spawns a fresh
consolidator that sends on `Ready` once, so a run with one session death and
reconnect produces two ready signals. -/
theorem C2_counterexample :
    (startSim 3 7 (fun _ => true)
      [.sessionDeath "connection reset", .stopCall] 9).2.readySpawns = 2 ∧
    (startSim 3 7 (fun _ => true)
      [.sessionDeath "connection reset", .stopCall] 9).1 = .returned none ∧
    (2 : Nat) ≠ 1 := by
  exact ⟨by rfl, by rfl, by decide⟩

/-- C2 (amended): the consolidated ready signal is produced once per
successful `connect()`: exactly once per `Start()` run when no reconnect
occurs, and one more for each successful reconnect within the run. -/
theorem C2_ready_once_per_successful_connect (cr : Int) (hcr : 0 < cr) (wait : Nat)
    (e : String) (fuel : Nat) :
    (startSim cr wait (fun _ => true) [.stopCall] (fuel + 2)).2.readySpawns = 1 ∧
    (startSim cr wait (fun _ => true)
      [.sessionDeath e, .stopCall] (fuel + 4)).2.readySpawns = 2 := by
  have h1 : ¬ (0 < cr ∧ (0 : Int) = cr) := by omega
  have h2 : decide (cr > 0) = true := by simp; omega
  constructor
  · simp [startSim, doConnect, dial, dialLoop, supLoop, sendStopKA, sendWatchOff,
      DialResult.attempts, initState, h1, h2]
  · simp [startSim, doConnect, dial, dialLoop, supLoop, sendStopKA, sendWatchOff,
      DialResult.attempts, initState, h1, h2]

/-- C2 witness at `ConnectionRetries = 3`: one ready signal without a
reconnect, two with one. -/
theorem C2_witness :
    (startSim 3 7 (fun _ => true) [.stopCall] 2).2.readySpawns = 1 ∧
    (startSim 3 7 (fun _ => true) [.sessionDeath "reset", .stopCall] 4).2.readySpawns = 2 :=
  C2_ready_once_per_successful_connect 3 (by decide) 7 "reset" 0

/-- C8: with `ConnectionRetries ≤ 0`, `dial()` never spawns the disconnect
watcher (whatever the dial outcomes), so no session termination is ever
posted on the `reconnect` channel: a `Start()` run that connects once and
then sees any number of session deaths never redials — `connect()` runs
once and exactly one `ssh.Dial` is ever made. -/
theorem C8_no_watcher_no_redial (cr : Int) (hcr : cr ≤ 0) (wait : Nat)
    (oracle : Nat → Bool) (ho : oracle 0 = true) (n : Nat) (e : String) :
    (∀ base fuel r, dial cr wait oracle base fuel = some r → r.watcher = false) ∧
    (startSim cr wait oracle
      (List.replicate n (.sessionDeath e) ++ [.stopCall]) (n + 3)).1 = .returned none ∧
    (startSim cr wait oracle
      (List.replicate n (.sessionDeath e) ++ [.stopCall]) (n + 3)).2.connects = 1 ∧
    (startSim cr wait oracle
      (List.replicate n (.sessionDeath e) ++ [.stopCall]) (n + 3)).2.totalDials = 1 := by
  have h1 : ¬ (0 < cr ∧ (0 : Int) = cr) := by omega
  have h2 : decide (cr > 0) = false := by simp; omega
  have hwatch : ∀ base fuel r, dial cr wait oracle base fuel = some r → r.watcher = false := by
    intro base fuel r h
    unfold dial at h
    cases hdl : dialLoop cr wait oracle base 0 0 fuel with
    | none => rw [hdl] at h; cases h
    | some x =>
      obtain ⟨evs, cl, err⟩ := x
      cases err with
      | some e2 =>
        rw [hdl] at h
        injection h with h
        rw [← h]
      | none =>
        rw [hdl] at h
        injection h with h
        rw [← h]
        exact h2
  have hd : ∀ f, dial cr wait oracle 0 (f + 1) =
      some { events := [.attempt 0], client := some (), err := none,
             keepAlive := true, watcher := false } := by
    intro f
    simp [dial, dialLoop, h1, h2, ho]
  have hconn : ∀ f, doConnect cr wait oracle (f + 1) initState =
      some ({ client := some (), keepAliveActive := true, watcherActive := false,
              stopKABuf := false, watchConnBuf := false, readySpawns := 1,
              connects := 1, loopsSpawned := true, totalDials := 1 }, none) := by
    intro f
    simp [doConnect, hd f, initState, DialResult.attempts]
  have hskip : ∀ (f : Nat) (s : SupState), s.watcherActive = false → ∀ rest,
      supLoop cr wait oracle (f + 1) s none none (Ev.sessionDeath e :: rest) =
        supLoop cr wait oracle f s none none rest := by
    intro f s hs rest
    simp [supLoop, hs]
  have hrep : ∀ (m f : Nat) (s : SupState), s.watcherActive = false →
      supLoop cr wait oracle (m + f) s none none
          (List.replicate m (Ev.sessionDeath e) ++ [Ev.stopCall]) =
        supLoop cr wait oracle f s none none [Ev.stopCall] := by
    intro m
    induction m with
    | zero => intro f s hs; simp
    | succ k ih =>
      intro f s hs
      have hf : (k + 1) + f = (k + f) + 1 := by omega
      rw [hf, List.replicate_succ, List.cons_append, hskip (k + f) s hs, ih f s hs]
  have hstop : supLoop cr wait oracle 3
      { client := some (), keepAliveActive := true, watcherActive := false,
        stopKABuf := false, watchConnBuf := false, readySpawns := 1,
        connects := 1, loopsSpawned := true, totalDials := 1 } none none [Ev.stopCall] =
      (.returned none,
       { client := some (), keepAliveActive := false, watcherActive := false,
         stopKABuf := false, watchConnBuf := true, readySpawns := 1,
         connects := 1, loopsSpawned := true, totalDials := 1 }) := by
    simp [supLoop, sendStopKA, sendWatchOff]
  have hmain : startSim cr wait oracle
      (List.replicate n (.sessionDeath e) ++ [.stopCall]) (n + 3) =
      (.returned none,
       { client := some (), keepAliveActive := false, watcherActive := false,
         stopKABuf := false, watchConnBuf := true, readySpawns := 1,
         connects := 1, loopsSpawned := true, totalDials := 1 }) := by
    have hconn3 : doConnect cr wait oracle (n + 3) initState =
        some ({ client := some (), keepAliveActive := true, watcherActive := false,
                stopKABuf := false, watchConnBuf := false, readySpawns := 1,
                connects := 1, loopsSpawned := true, totalDials := 1 }, none) := hconn (n + 2)
    have hred : startSim cr wait oracle
        (List.replicate n (.sessionDeath e) ++ [.stopCall]) (n + 3) =
        supLoop cr wait oracle (n + 3)
          { client := some (), keepAliveActive := true, watcherActive := false,
            stopKABuf := false, watchConnBuf := false, readySpawns := 1,
            connects := 1, loopsSpawned := true, totalDials := 1 } none none
          (List.replicate n (.sessionDeath e) ++ [.stopCall]) := by
      unfold startSim
      rw [hconn3]
    rw [hred, hrep n 3 _ rfl, hstop]
  exact ⟨hwatch, by rw [hmain], by rw [hmain], by rw [hmain]⟩

/-- C8 witness at `ConnectionRetries = -1`, two session deaths. -/
theorem C8_witness :
    (startSim (-1) 7 (fun _ => true)
      (List.replicate 2 (.sessionDeath "reset") ++ [.stopCall]) 5).1 = .returned none ∧
    (startSim (-1) 7 (fun _ => true)
      (List.replicate 2 (.sessionDeath "reset") ++ [.stopCall]) 5).2.connects = 1 := by
  have h := C8_no_watcher_no_redial (-1) (by decide) 7 (fun _ => true) rfl 2 "reset"
  exact ⟨h.2.1, h.2.2.1⟩

/-- C9: `startChannel` checks `t.client == nil` after the accept and before
the remote dial, returning an error rather than dereferencing the nil
client; the accept loop posts that error on `done`, and since the client is
nil the `done` arm of `Start()` returns it directly: after a failed dial
with `ConnectionRetries < 0`, one accepted local connection terminates the
tunnel fatally. -/
theorem C9_nil_client_accept_fatal (cr : Int) (hcr : cr < 0) (wait : Nat)
    (b : Bool) (fuel : Nat) :
    (∀ rd, startChannel none true rd = some missingSSHClientError) ∧
    (startSim cr wait (fun _ => false) [.localAccept b] (fuel + 3)).1 =
      .returned (some missingSSHClientError) := by
  have h1 : ¬ (0 < cr ∧ (0 : Int) = cr) := by omega
  have h2 : decide (cr > 0) = false := by simp; omega
  constructor
  · intro rd
    rfl
  · simp [startSim, doConnect, dial, dialLoop, supLoop, sendStopKA, sendWatchOff,
      startChannel, DialResult.attempts, initState, h1, h2, hcr]

/-- C9 witness at `ConnectionRetries = -1`. -/
theorem C9_witness :
    (startSim (-1) 7 (fun _ => false) [.localAccept true] 3).1 =
      .returned (some missingSSHClientError) :=
  (C9_nil_client_accept_fatal (-1) (by decide) 7 true 0).2

end Mole
